import Mathlib

/-!
Shallow embedding of the whiteboard application in src/src/App.tsx.

Numbers that the source manipulates as JavaScript numbers are modelled as
exact rationals; the canvas 2D context is modelled as a journal of the
path-construction state plus the list of committed paint commands, in the
order the source issues them.  Event handlers become pure functions from an
event and the component state to the next component state.  External inputs
that the handlers read (mouse coordinates, the bounding rectangle of the
canvas, `Date.now()`, clipboard image dimensions, the viewport size) are
passed as explicit arguments.
-/

namespace Whiteboard

/-- Tool type from App.tsx line 6: "pen" | "sticker" | "eraser" | "text" | "none". -/
inductive Tool where
  | pen
  | sticker
  | eraser
  | text
  | none
deriving DecidableEq

/-- StickerType from App.tsx lines 7-14: id, icon kind, position and size. -/
structure StickerType where
  id : String
  type : String
  x : ℚ
  y : ℚ
  width : ℚ
  height : ℚ
deriving DecidableEq

/-- TextBoxType from App.tsx lines 15-22. -/
structure TextBoxType where
  id : String
  x : ℚ
  y : ℚ
  width : ℚ
  height : ℚ
  content : String
deriving DecidableEq

/-- ImageType from App.tsx lines 23-30. -/
structure ImageType where
  id : String
  x : ℚ
  y : ℚ
  width : ℚ
  height : ℚ
  url : String
deriving DecidableEq

/-- STICKER_DEFAULT_SIZE from App.tsx line 65. -/
def STICKER_DEFAULT_SIZE : ℚ := 50

/-- DEFAULT_PEN_SIZE from App.tsx line 63. -/
def DEFAULT_PEN_SIZE : ℚ := 3

/-- DEFAULT_COLOR from App.tsx line 64. -/
def DEFAULT_COLOR : String := "#000000"

/-- A path-construction command of the canvas 2D context: the source uses
moveTo, lineTo and arc (the arc is always a full circle of a given center
and radius, line 203). -/
inductive PathCmd where
  | moveTo (p : ℚ × ℚ)
  | lineTo (p : ℚ × ℚ)
  | arc (c : ℚ × ℚ) (r : ℚ)
deriving DecidableEq

/-- A committed bitmap operation of the canvas 2D context.  `strokePath`
records a stroke() call: the style, line width and the whole current path
at that moment (lines 172-173).  `clippedFillRect` records the erasing
fill of lines 201-212: a fillRect clipped to the clip path installed by
arc+clip between save and restore. -/
inductive PaintCmd where
  | strokePath (style : String) (lineWidth : ℚ) (path : List PathCmd) (closed : Bool)
  | clippedFillRect (clip : List PathCmd) (fill : String) (x : ℚ) (y : ℚ) (w : ℚ) (h : ℚ)
deriving DecidableEq

/-- The canvas 2D rendering context, modelled as its style state, its
current path (with a closed flag for closePath) and the journal of
committed paint operations.  save/restore around the erase fill restore
the style and clip state but not the current path, which beginPath
replaced. -/
structure Ctx where
  strokeStyle : String
  lineWidth : ℚ
  fillStyle : String
  path : List PathCmd
  pathClosed : Bool
  painted : List PaintCmd
deriving DecidableEq

/-- beginPath: resets the current path (line 147). -/
def Ctx.beginPath (c : Ctx) : Ctx :=
  { c with path := [], pathClosed := false }

/-- moveTo: starts a subpath at the given point (line 148). -/
def Ctx.pathMoveTo (c : Ctx) (p : ℚ × ℚ) : Ctx :=
  { c with path := c.path ++ [PathCmd.moveTo p] }

/-- lineTo: extends the current path to the given point (line 172). -/
def Ctx.pathLineTo (c : Ctx) (p : ℚ × ℚ) : Ctx :=
  { c with path := c.path ++ [PathCmd.lineTo p] }

/-- stroke: paints the whole current path with the current stroke style
and line width (line 173). -/
def Ctx.stroke (c : Ctx) : Ctx :=
  { c with painted := c.painted ++ [PaintCmd.strokePath c.strokeStyle c.lineWidth c.path c.pathClosed] }

/-- closePath (line 182): marks the current subpath closed; it paints
nothing, and on an empty path it does nothing.  Re-closing an already
closed path leaves the context unchanged. -/
def Ctx.closePath (c : Ctx) : Ctx :=
  if c.path = [] then c else { c with pathClosed := true }

/-- The save / beginPath / arc / clip / fillStyle / fillRect / restore
sequence of lines 201-212: the net effect is one white fillRect over the
bounding square of the circle, clipped to the circle, appended to the
journal.  restore brings back the clip and the fill style, but the current
path stays as beginPath+arc left it (the canvas path is not part of the
save/restore state). -/
def Ctx.eraseCircleOps (c : Ctx) (center : ℚ × ℚ) (r : ℚ) : Ctx :=
  { c with
    path := [PathCmd.arc center r]
    pathClosed := false
    painted := c.painted ++
      [PaintCmd.clippedFillRect [PathCmd.arc center r] "white"
        (center.1 - r) (center.2 - r) (r * 2) (r * 2)] }

/-- A mouse event as the handlers see it: client coordinates together with
the bounding rectangle of the canvas (the handlers call
canvas.getBoundingClientRect() themselves, so we pass the rectangle with
the event), plus the button-held flag that the DOM event carries.  The
source handlers read only clientX and clientY. -/
structure MouseEvent where
  clientX : ℚ
  clientY : ℚ
  rectLeft : ℚ
  rectTop : ℚ
  buttonsHeld : Bool
deriving DecidableEq

/-- The component state of App (App.tsx lines 68-84): the useState hooks
plus the contextRef / lastPosition refs that the handlers mutate. -/
structure AppState where
  tool : Tool
  selectedColor : String
  penSize : ℚ
  selectedSticker : String
  showColorPicker : Bool
  showStickerPicker : Bool
  stickers : List StickerType
  textBoxes : List TextBoxType
  images : List ImageType
  scale : ℚ
  isDrawing : Bool
  activeTextBox : Option String
  ctx : Option Ctx
  lastPosition : Option (ℚ × ℚ)
deriving DecidableEq

/-- The coordinate transform every handler performs: x = (clientX -
rect.left) / scale, y = (clientY - rect.top) / scale (e.g. lines 144-145). -/
def canvasPoint (e : MouseEvent) (scale : ℚ) : ℚ × ℚ :=
  ((e.clientX - e.rectLeft) / scale, (e.clientY - e.rectTop) / scale)

/-- startDrawing (lines 136-153): only for the pen tool with an
initialized context; begins a path at the event point, sets isDrawing and
lastPosition. -/
def startDrawing (e : MouseEvent) (s : AppState) : AppState :=
  if s.tool ≠ Tool.pen then s else
  match s.ctx with
  | Option.none => s
  | Option.some c =>
    let p := canvasPoint e s.scale
    { s with
      ctx := Option.some ((c.beginPath).pathMoveTo p)
      isDrawing := true
      lastPosition := Option.some p }

/-- draw (lines 155-177): a no-op unless a stroke is in progress with the
pen tool, the context is initialized and a last position exists; otherwise
extends the path to the event point, strokes it, and updates lastPosition. -/
def draw (e : MouseEvent) (s : AppState) : AppState :=
  if s.isDrawing = false ∨ s.tool ≠ Tool.pen then s else
  match s.ctx, s.lastPosition with
  | Option.some c, Option.some _ =>
    let p := canvasPoint e s.scale
    { s with
      ctx := Option.some ((c.pathLineTo p).stroke)
      lastPosition := Option.some p }
  | _, _ => s

/-- stopDrawing (lines 179-185): closes the current path when the context
exists, clears isDrawing and lastPosition. -/
def stopDrawing (s : AppState) : AppState :=
  { s with
    ctx := s.ctx.map Ctx.closePath
    isDrawing := false
    lastPosition := Option.none }

/-- Squared Euclidean distance, as the source computes it before taking
Math.sqrt (lines 219-221): pow(centerX - x, 2) + pow(centerY - y, 2). -/
def distSq (p q : ℚ × ℚ) : ℚ :=
  (p.1 - q.1) ^ 2 + (p.2 - q.2) ^ 2

/-- Boolean form of the comparison `Math.sqrt d2 > r` the eraser filter
makes (line 222).  For d2 ≥ 0 the real comparison sqrt d2 > r holds
exactly when r < 0 or r^2 < d2; we use that decidable form so the model
stays executable, and prove it equal to the square-root comparison in
`sqrtGt_true_iff`. -/
def sqrtGt (d2 r : ℚ) : Bool :=
  decide (r < 0) || decide (r ^ 2 < d2)

/-- Center of a sticker as the eraser computes it (lines 217-218). -/
def StickerType.center (o : StickerType) : ℚ × ℚ :=
  (o.x + o.width / 2, o.y + o.height / 2)

/-- Center of a text box as the eraser computes it (lines 229-230). -/
def TextBoxType.center (o : TextBoxType) : ℚ × ℚ :=
  (o.x + o.width / 2, o.y + o.height / 2)

/-- Center of an image as the eraser computes it (lines 241-242). -/
def ImageType.center (o : ImageType) : ℚ × ℚ :=
  (o.x + o.width / 2, o.y + o.height / 2)

/-- erase (lines 188-251): requires the eraser tool and an initialized
context; uses radius = penSize * 2, clears the circle on the canvas and
keeps, in each of the three collections, exactly the objects whose center
is at distance strictly greater than the radius from the event point. -/
def erase (e : MouseEvent) (s : AppState) : AppState :=
  if s.tool ≠ Tool.eraser then s else
  match s.ctx with
  | Option.none => s
  | Option.some c =>
    let p := canvasPoint e s.scale
    let radius := s.penSize * 2
    { s with
      ctx := Option.some (c.eraseCircleOps p radius)
      stickers := s.stickers.filter fun o => sqrtGt (distSq o.center p) radius
      textBoxes := s.textBoxes.filter fun o => sqrtGt (distSq o.center p) radius
      images := s.images.filter fun o => sqrtGt (distSq o.center p) radius }

/-- Sticker id template of line 267. -/
def stickerIdOf (now : ℕ) : String :=
  "sticker-" ++ Nat.repr now

/-- Text-box id template of line 278. -/
def textIdOf (now : ℕ) : String :=
  "text-" ++ Nat.repr now

/-- Image id template of line 323. -/
def imgIdOf (now : ℕ) : String :=
  "img-" ++ Nat.repr now

/-- handleCanvasClick (lines 254-297).  `now` is the value Date.now()
returns during the call.  With the sticker tool and a non-empty selected
sticker it appends a new default-size sticker and resets tool and
selection; with the text tool it appends an empty text box and focuses it;
with the eraser tool it calls erase; otherwise it does nothing. -/
def handleCanvasClick (e : MouseEvent) (now : ℕ) (s : AppState) : AppState :=
  let p := canvasPoint e s.scale
  if s.tool = Tool.sticker ∧ s.selectedSticker ≠ "" then
    { s with
      stickers := s.stickers ++
        [{ id := stickerIdOf now, type := s.selectedSticker, x := p.1, y := p.2,
           width := STICKER_DEFAULT_SIZE, height := STICKER_DEFAULT_SIZE }]
      selectedSticker := ""
      tool := Tool.none }
  else if s.tool = Tool.text then
    { s with
      textBoxes := s.textBoxes ++
        [{ id := textIdOf now, x := p.1, y := p.2, width := 150, height := 50, content := "" }]
      activeTextBox := Option.some (textIdOf now)
      tool := Tool.none }
  else if s.tool = Tool.eraser then
    erase e s
  else s

/-- Insertion of one pasted image payload (lines 300-340): the img.onload
callback computes width = 300, height = width / (naturalW / naturalH), and
centers the image on the viewport (innerW × innerH) in canvas space using
the current scale.  `now` is Date.now() at insertion time. -/
def pasteImage (naturalW naturalH innerW innerH : ℚ) (now : ℕ) (url : String)
    (s : AppState) : AppState :=
  let ar := naturalW / naturalH
  let width : ℚ := 300
  let height := width / ar
  { s with
    images := s.images ++
      [{ id := imgIdOf now
         x := innerW / 2 / s.scale - width / 2
         y := innerH / 2 / s.scale - height / 2
         width := width, height := height, url := url }] }

/-- Zoom request direction, the "in" / "out" argument of handleZoom. -/
inductive ZoomDirection where
  | zin
  | zout
deriving DecidableEq

/-- The scale update of handleZoom (lines 343-349) with the arithmetic
idealized as exact rationals: +0.1 while below 3, -0.1 while above 0.5,
otherwise unchanged.  The IEEE-double-faithful semantics of the same
lines is handleZoomStepFP below. -/
def handleZoomStep (d : ZoomDirection) (prev : ℚ) : ℚ :=
  match d with
  | ZoomDirection.zin => if prev < 3 then prev + 0.1 else prev
  | ZoomDirection.zout => if prev > 0.5 then prev - 0.1 else prev

/-- handleZoom applied to the component state. -/
def handleZoom (d : ZoomDirection) (s : AppState) : AppState :=
  { s with scale := handleZoomStep d s.scale }

/-- A finite sequence of zoom requests applied to a starting scale. -/
def applyZooms (ds : List ZoomDirection) (z : ℚ) : ℚ :=
  ds.foldl (fun z d => handleZoomStep d z) z

/-- The onMouseMove prop of the canvas (lines 375-378): draw when a pen
stroke is in progress, erase whenever the eraser tool is active.  The
handler never reads the button state of the event. -/
def onMouseMove (e : MouseEvent) (s : AppState) : AppState :=
  let s1 := if s.isDrawing = true ∧ s.tool = Tool.pen then draw e s else s
  if s1.tool = Tool.eraser then erase e s1 else s1

/-- onDragStop of a sticker (lines 396-402): replaces x and y of the
sticker with the given id by the drop position, leaves everything else. -/
def onDragStopStickers (targetId : String) (dx dy : ℚ) (s : AppState) : AppState :=
  { s with
    stickers := s.stickers.map fun o =>
      if o.id = targetId then { o with x := dx, y := dy } else o }

/-- onDragStop of a text box (lines 440-446). -/
def onDragStopTextBoxes (targetId : String) (dx dy : ℚ) (s : AppState) : AppState :=
  { s with
    textBoxes := s.textBoxes.map fun o =>
      if o.id = targetId then { o with x := dx, y := dy } else o }

/-- onDragStop of an image (lines 499-505). -/
def onDragStopImages (targetId : String) (dx dy : ℚ) (s : AppState) : AppState :=
  { s with
    images := s.images.map fun o =>
      if o.id = targetId then { o with x := dx, y := dy } else o }

/-- onResizeStop of a sticker (lines 403-417): stores
parseInt(ref.style.width) and parseInt(ref.style.height) — integers, with
no clamping — together with the new position, for the sticker with the
given id.  `w` and `h` are the parseInt results. -/
def onResizeStopStickers (targetId : String) (w h : ℤ) (px py : ℚ) (s : AppState) : AppState :=
  { s with
    stickers := s.stickers.map fun o =>
      if o.id = targetId then
        { o with width := (w : ℚ), height := (h : ℚ), x := px, y := py }
      else o }

/-- onResizeStop of a text box (lines 447-461). -/
def onResizeStopTextBoxes (targetId : String) (w h : ℤ) (px py : ℚ) (s : AppState) : AppState :=
  { s with
    textBoxes := s.textBoxes.map fun o =>
      if o.id = targetId then
        { o with width := (w : ℚ), height := (h : ℚ), x := px, y := py }
      else o }

/-- onResizeStop of an image (lines 506-520). -/
def onResizeStopImages (targetId : String) (w h : ℤ) (px py : ℚ) (s : AppState) : AppState :=
  { s with
    images := s.images.map fun o =>
      if o.id = targetId then
        { o with width := (w : ℚ), height := (h : ℚ), x := px, y := py }
      else o }

/-- The textarea onChange of a text box (lines 467-475): replaces the
content of the text box with the given id. -/
def onTextChange (targetId : String) (newContent : String) (s : AppState) : AppState :=
  { s with
    textBoxes := s.textBoxes.map fun t =>
      if t.id = targetId then { t with content := newContent } else t }

/-- A sticker-picker option click (lines 647-650): selects the sticker
kind and switches to the sticker tool. -/
def pickSticker (kind : String) (s : AppState) : AppState :=
  { s with selectedSticker := kind, tool := Tool.sticker }

/-- A context as the initialization effect of lines 87-109 leaves it: the
configured styles, an empty path, and a journal starting after the white
background fill. -/
def mkCtx : Ctx :=
  { strokeStyle := DEFAULT_COLOR
    lineWidth := DEFAULT_PEN_SIZE
    fillStyle := "white"
    path := []
    pathClosed := false
    painted := [] }

/-- The initial component state (lines 68-84) with an initialized canvas. -/
def sampleState : AppState :=
  { tool := Tool.none
    selectedColor := DEFAULT_COLOR
    penSize := DEFAULT_PEN_SIZE
    selectedSticker := ""
    showColorPicker := false
    showStickerPicker := false
    stickers := []
    textBoxes := []
    images := []
    scale := 1
    isDrawing := false
    activeTextBox := Option.none
    ctx := Option.some mkCtx
    lastPosition := Option.none }

/-! ## Helper lemmas -/

/-- The decidable comparison `sqrtGt d2 r` agrees with the real comparison
`Math.sqrt d2 > r` the source makes. -/
theorem sqrtGt_true_iff (d2 r : ℚ) :
    sqrtGt d2 r = true ↔ (r : ℝ) < Real.sqrt (d2 : ℝ) := by
  unfold sqrtGt
  simp only [Bool.or_eq_true, decide_eq_true_eq]
  rcases lt_or_le r 0 with hr | hr
  · constructor
    · intro _
      calc (r : ℝ) < 0 := by exact_mod_cast hr
        _ ≤ Real.sqrt (d2 : ℝ) := Real.sqrt_nonneg _
    · intro _
      exact Or.inl hr
  · have hr' : (0 : ℝ) ≤ (r : ℝ) := by exact_mod_cast hr
    rw [Real.lt_sqrt hr']
    constructor
    · rintro (h1 | h1)
      · exact absurd h1 (not_lt.mpr hr)
      · exact_mod_cast h1
    · intro h1
      exact Or.inr (by exact_mod_cast h1)

/-- Under the eraser tool with an initialized context, erase filters the
sticker list by the survival predicate. -/
theorem erase_stickers_eq (e : MouseEvent) (s : AppState) (c : Ctx)
    (htool : s.tool = Tool.eraser) (hc : s.ctx = Option.some c) :
    (erase e s).stickers =
      s.stickers.filter
        (fun o => sqrtGt (distSq o.center (canvasPoint e s.scale)) (s.penSize * 2)) := by
  simp [erase, htool, hc]

/-- Under the eraser tool with an initialized context, erase filters the
text-box list by the survival predicate. -/
theorem erase_textBoxes_eq (e : MouseEvent) (s : AppState) (c : Ctx)
    (htool : s.tool = Tool.eraser) (hc : s.ctx = Option.some c) :
    (erase e s).textBoxes =
      s.textBoxes.filter
        (fun o => sqrtGt (distSq o.center (canvasPoint e s.scale)) (s.penSize * 2)) := by
  simp [erase, htool, hc]

/-- Under the eraser tool with an initialized context, erase filters the
image list by the survival predicate. -/
theorem erase_images_eq (e : MouseEvent) (s : AppState) (c : Ctx)
    (htool : s.tool = Tool.eraser) (hc : s.ctx = Option.some c) :
    (erase e s).images =
      s.images.filter
        (fun o => sqrtGt (distSq o.center (canvasPoint e s.scale)) (s.penSize * 2)) := by
  simp [erase, htool, hc]

/-- C1: an eraser application at canvas point c with pen size s uses the
effective radius 2*s, and in each of the three scene-object collections an
object survives the application if and only if the Euclidean distance from
its center (x + width/2, y + height/2) to c is strictly greater than that
radius; equivalently every object whose center lies at distance at most
the radius is removed. -/
theorem erase_center_hit_test (e : MouseEvent) (s : AppState)
    (htool : s.tool = Tool.eraser) (hctx : s.ctx.isSome = true) :
    (∀ o : StickerType, o ∈ (erase e s).stickers ↔
        o ∈ s.stickers ∧
          ((s.penSize * 2 : ℚ) : ℝ) <
            Real.sqrt ((distSq o.center (canvasPoint e s.scale) : ℚ) : ℝ)) ∧
    (∀ o : TextBoxType, o ∈ (erase e s).textBoxes ↔
        o ∈ s.textBoxes ∧
          ((s.penSize * 2 : ℚ) : ℝ) <
            Real.sqrt ((distSq o.center (canvasPoint e s.scale) : ℚ) : ℝ)) ∧
    (∀ o : ImageType, o ∈ (erase e s).images ↔
        o ∈ s.images ∧
          ((s.penSize * 2 : ℚ) : ℝ) <
            Real.sqrt ((distSq o.center (canvasPoint e s.scale) : ℚ) : ℝ)) := by
  obtain ⟨c, hc⟩ := Option.isSome_iff_exists.mp hctx
  refine ⟨fun o => ?_, fun o => ?_, fun o => ?_⟩
  · rw [erase_stickers_eq e s c htool hc, List.mem_filter, sqrtGt_true_iff]
  · rw [erase_textBoxes_eq e s c htool hc, List.mem_filter, sqrtGt_true_iff]
  · rw [erase_images_eq e s c htool hc, List.mem_filter, sqrtGt_true_iff]

/-- Scenario state for the eraser: pen size 15 (radius 30) and one sticker
at (100,100) of default size 50, center (125,125). -/
def demoSticker : StickerType :=
  { id := "sticker-0", type := "fas fa-heart", x := 100, y := 100, width := 50, height := 50 }

/-- Eraser-tool state holding demoSticker. -/
def eraseDemoState : AppState :=
  { sampleState with tool := Tool.eraser, penSize := 15, stickers := [demoSticker] }

/-- A pointer event at client (120,120) over a canvas at the client origin. -/
def eraseDemoEvent : MouseEvent :=
  { clientX := 120, clientY := 120, rectLeft := 0, rectTop := 0, buttonsHeld := true }

/-- Witness for C1 at a concrete input: the sticker of eraseDemoState
survives the eraser application at (120,120) exactly when its center is
strictly farther than the radius 30. -/
theorem erase_center_hit_test_witness :
    eraseDemoState.tool = Tool.eraser ∧ eraseDemoState.ctx.isSome = true ∧
    (demoSticker ∈ (erase eraseDemoEvent eraseDemoState).stickers ↔
      demoSticker ∈ eraseDemoState.stickers ∧
        ((eraseDemoState.penSize * 2 : ℚ) : ℝ) <
          Real.sqrt ((distSq demoSticker.center
            (canvasPoint eraseDemoEvent eraseDemoState.scale) : ℚ) : ℝ)) :=
  ⟨rfl, rfl, (erase_center_hit_test eraseDemoEvent eraseDemoState rfl rfl).1 demoSticker⟩

/-- The painted journal of the surface, when the context is initialized. -/
def surfaceOf (s : AppState) : Option (List PaintCmd) :=
  s.ctx.map Ctx.painted

/-- closePath is idempotent on the context. -/
theorem closePath_idem (c : Ctx) : c.closePath.closePath = c.closePath := by
  unfold Ctx.closePath
  by_cases h : c.path = [] <;> simp [h]

/-- closePath paints nothing. -/
theorem closePath_painted (c : Ctx) : c.closePath.painted = c.painted := by
  unfold Ctx.closePath
  by_cases h : c.path = [] <;> simp [h]

/-- C8: endStroke is idempotent: calling stopDrawing twice in a row
produces exactly the same state as calling it once; and when no stroke is
active (isDrawing is false and no last point exists) a call leaves the
stroke state (inProgress flag, last point) and the painted surface
unchanged. -/
theorem endStroke_idempotent (s : AppState) :
    stopDrawing (stopDrawing s) = stopDrawing s ∧
    (s.isDrawing = false → s.lastPosition = Option.none →
      (stopDrawing s).isDrawing = s.isDrawing ∧
      (stopDrawing s).lastPosition = s.lastPosition ∧
      surfaceOf (stopDrawing s) = surfaceOf s) := by
  constructor
  · rcases hc : s.ctx with _ | c
    · simp [stopDrawing, hc]
    · simp [stopDrawing, hc, closePath_idem]
  · intro h1 h2
    rcases hc : s.ctx with _ | c
    · simp [stopDrawing, surfaceOf, hc, h1, h2]
    · simp [stopDrawing, surfaceOf, hc, h1, h2, closePath_painted]

/-- Witness for C8 at the initial state, where no stroke is active. -/
theorem endStroke_idempotent_witness :
    (stopDrawing (stopDrawing sampleState) = stopDrawing sampleState) ∧
    sampleState.isDrawing = false ∧ sampleState.lastPosition = Option.none ∧
    ((stopDrawing sampleState).isDrawing = sampleState.isDrawing ∧
     (stopDrawing sampleState).lastPosition = sampleState.lastPosition ∧
     surfaceOf (stopDrawing sampleState) = surfaceOf sampleState) :=
  ⟨(endStroke_idempotent sampleState).1, rfl, rfl,
   (endStroke_idempotent sampleState).2 rfl rfl⟩

/-- C9: whenever no stroke is in progress (the isDrawing flag is false or
the last point is absent), a draw (extendStroke) call leaves the whole
state, surface included, unchanged. -/
theorem extendStroke_noop_when_inactive (e : MouseEvent) (s : AppState)
    (h : s.isDrawing = false ∨ s.lastPosition = Option.none) :
    draw e s = s := by
  unfold draw
  rcases h with h | h
  · simp [h]
  · by_cases hd : s.isDrawing = false ∨ s.tool ≠ Tool.pen
    · simp [hd]
    · rw [if_neg hd, h]
      rcases s.ctx with _ | c <;> rfl

/-- Witness for C9: a draw call on the initial state (no stroke active)
changes nothing. -/
theorem extendStroke_noop_when_inactive_witness :
    (sampleState.isDrawing = false ∨ sampleState.lastPosition = Option.none) ∧
    draw eraseDemoEvent sampleState = sampleState :=
  ⟨Or.inl rfl, extendStroke_noop_when_inactive eraseDemoEvent sampleState (Or.inl rfl)⟩

/-- C10: a canvas click while the sticker tool is active but no sticker
kind is selected changes nothing at all: no insertion, the tool stays
"sticker", and the surface is untouched. -/
theorem sticker_click_without_selection_noop (e : MouseEvent) (now : ℕ) (s : AppState)
    (h1 : s.tool = Tool.sticker) (h2 : s.selectedSticker = "") :
    handleCanvasClick e now s = s := by
  simp [handleCanvasClick, h1, h2]

/-- A state with the sticker tool active but no selected sticker kind. -/
def stickerNoKindState : AppState :=
  { sampleState with tool := Tool.sticker, selectedSticker := "" }

/-- Witness for C10 at a concrete state. -/
theorem sticker_click_without_selection_noop_witness :
    stickerNoKindState.tool = Tool.sticker ∧ stickerNoKindState.selectedSticker = "" ∧
    handleCanvasClick eraseDemoEvent 42 stickerNoKindState = stickerNoKindState :=
  ⟨rfl, rfl, sticker_click_without_selection_noop eraseDemoEvent 42 stickerNoKindState rfl rfl⟩

/-- A small sticker centered at (100,100). -/
def hoverSticker : StickerType :=
  { id := "sticker-1", type := "fas fa-heart", x := 95, y := 95, width := 10, height := 10 }

/-- State in which the eraser tool is active, no pen stroke ever started,
and one small sticker sits centered at (100,100). -/
def hoverState : AppState :=
  { sampleState with tool := Tool.eraser, stickers := [hoverSticker] }

/-- A pointer-move event at (100,100) with the button not held. -/
def hoverMoveEvent : MouseEvent :=
  { clientX := 100, clientY := 100, rectLeft := 0, rectTop := 0, buttonsHeld := false }

/-- C5 counterexample: with the eraser tool active, a pointer-move with
the button not held (and no drag in progress) does invoke the eraser: it
removes the sticker whose center lies under the pointer, so the claim
that such a move leaves the collections unchanged is false. -/
theorem eraser_hover_counterexample :
    hoverState.tool = Tool.eraser ∧ hoverState.isDrawing = false ∧
    hoverMoveEvent.buttonsHeld = false ∧
    (onMouseMove hoverMoveEvent hoverState).stickers ≠ hoverState.stickers := by
  refine ⟨rfl, rfl, rfl, ?_⟩
  have h1 : (onMouseMove hoverMoveEvent hoverState).stickers = [] := by
    norm_num [onMouseMove, draw, erase, hoverState, sampleState, mkCtx, canvasPoint,
      hoverMoveEvent, hoverSticker, StickerType.center, distSq, sqrtGt,
      DEFAULT_PEN_SIZE, List.filter]
  rw [h1]
  simp [hoverState]

/-- C5 amended: while the eraser tool is active, every pointer-move event
invokes the eraser, regardless of whether the pointer button is held; the
handler never reads the button state. -/
theorem mousemove_eraser_always_erases (e : MouseEvent) (s : AppState)
    (h : s.tool = Tool.eraser) :
    onMouseMove e s = erase e s ∧
    ∀ b : Bool, onMouseMove { e with buttonsHeld := b } s = onMouseMove e s := by
  constructor
  · unfold onMouseMove
    simp [h]
  · intro b
    rfl

/-- Witness for the amended C5 at a concrete input: the hover move is an
erase, and holding or releasing the button makes no difference. -/
theorem mousemove_eraser_always_erases_witness :
    hoverState.tool = Tool.eraser ∧
    onMouseMove hoverMoveEvent hoverState = erase hoverMoveEvent hoverState ∧
    onMouseMove { hoverMoveEvent with buttonsHeld := true } hoverState =
      onMouseMove hoverMoveEvent hoverState :=
  ⟨rfl, (mousemove_eraser_always_erases hoverMoveEvent hoverState rfl).1,
    (mousemove_eraser_always_erases hoverMoveEvent hoverState rfl).2 true⟩

/-- C7: a drag-stop (moveTo) on any of the three collections replaces
only the x and y of the object with the matching id — its width, height
and content (text or image source) are kept — leaves every other object
unchanged, leaves the other two collections and the surface unchanged,
and is a complete no-op when no object carries the id. -/
theorem dragstop_moves_position_only (targetId : String) (dx dy : ℚ) (s : AppState) :
    ((∀ o ∈ s.stickers, o.id = targetId →
        { o with x := dx, y := dy } ∈ (onDragStopStickers targetId dx dy s).stickers) ∧
     (∀ o ∈ s.stickers, o.id ≠ targetId →
        o ∈ (onDragStopStickers targetId dx dy s).stickers) ∧
     ((∀ o ∈ s.stickers, o.id ≠ targetId) → onDragStopStickers targetId dx dy s = s) ∧
     (onDragStopStickers targetId dx dy s).textBoxes = s.textBoxes ∧
     (onDragStopStickers targetId dx dy s).images = s.images ∧
     (onDragStopStickers targetId dx dy s).ctx = s.ctx) ∧
    ((∀ o ∈ s.textBoxes, o.id = targetId →
        { o with x := dx, y := dy } ∈ (onDragStopTextBoxes targetId dx dy s).textBoxes) ∧
     (∀ o ∈ s.textBoxes, o.id ≠ targetId →
        o ∈ (onDragStopTextBoxes targetId dx dy s).textBoxes) ∧
     ((∀ o ∈ s.textBoxes, o.id ≠ targetId) → onDragStopTextBoxes targetId dx dy s = s) ∧
     (onDragStopTextBoxes targetId dx dy s).stickers = s.stickers ∧
     (onDragStopTextBoxes targetId dx dy s).images = s.images ∧
     (onDragStopTextBoxes targetId dx dy s).ctx = s.ctx) ∧
    ((∀ o ∈ s.images, o.id = targetId →
        { o with x := dx, y := dy } ∈ (onDragStopImages targetId dx dy s).images) ∧
     (∀ o ∈ s.images, o.id ≠ targetId →
        o ∈ (onDragStopImages targetId dx dy s).images) ∧
     ((∀ o ∈ s.images, o.id ≠ targetId) → onDragStopImages targetId dx dy s = s) ∧
     (onDragStopImages targetId dx dy s).stickers = s.stickers ∧
     (onDragStopImages targetId dx dy s).textBoxes = s.textBoxes ∧
     (onDragStopImages targetId dx dy s).ctx = s.ctx) := by
  refine ⟨⟨?_, ?_, ?_, rfl, rfl, rfl⟩, ⟨?_, ?_, ?_, rfl, rfl, rfl⟩, ⟨?_, ?_, ?_, rfl, rfl, rfl⟩⟩
  · intro o ho hid
    exact List.mem_map.mpr ⟨o, ho, by simp [hid]⟩
  · intro o ho hid
    exact List.mem_map.mpr ⟨o, ho, by simp [hid]⟩
  · intro hall
    have hmap : s.stickers.map
        (fun o => if o.id = targetId then { o with x := dx, y := dy } else o) = s.stickers := by
      conv_rhs => rw [← List.map_id s.stickers]
      exact List.map_congr_left fun o ho => by simp [hall o ho]
    simp [onDragStopStickers, hmap]
  · intro o ho hid
    exact List.mem_map.mpr ⟨o, ho, by simp [hid]⟩
  · intro o ho hid
    exact List.mem_map.mpr ⟨o, ho, by simp [hid]⟩
  · intro hall
    have hmap : s.textBoxes.map
        (fun o => if o.id = targetId then { o with x := dx, y := dy } else o) = s.textBoxes := by
      conv_rhs => rw [← List.map_id s.textBoxes]
      exact List.map_congr_left fun o ho => by simp [hall o ho]
    simp [onDragStopTextBoxes, hmap]
  · intro o ho hid
    exact List.mem_map.mpr ⟨o, ho, by simp [hid]⟩
  · intro o ho hid
    exact List.mem_map.mpr ⟨o, ho, by simp [hid]⟩
  · intro hall
    have hmap : s.images.map
        (fun o => if o.id = targetId then { o with x := dx, y := dy } else o) = s.images := by
      conv_rhs => rw [← List.map_id s.images]
      exact List.map_congr_left fun o ho => by simp [hall o ho]
    simp [onDragStopImages, hmap]

/-- Witness for C7 at a concrete input: dragging the sticker of
eraseDemoState to (7, 8) keeps its size and kind, and dragging an absent
id is a no-op. -/
theorem dragstop_moves_position_only_witness :
    demoSticker ∈ eraseDemoState.stickers ∧ demoSticker.id = "sticker-0" ∧
    { demoSticker with x := (7:ℚ), y := (8:ℚ) } ∈
      (onDragStopStickers "sticker-0" 7 8 eraseDemoState).stickers ∧
    onDragStopStickers "missing-id" 7 8 eraseDemoState = eraseDemoState :=
  ⟨List.mem_singleton_self _, rfl,
    (dragstop_moves_position_only "sticker-0" 7 8 eraseDemoState).1.1 demoSticker
      (List.mem_singleton_self _) rfl,
    (dragstop_moves_position_only "missing-id" 7 8 eraseDemoState).1.2.2.1
      (by intro o ho; simp [eraseDemoState, sampleState] at ho; simp [ho, demoSticker])⟩

/-- A state holding only demoSticker, for resize experiments. -/
def resizeDemoState : AppState :=
  { sampleState with stickers := [demoSticker] }

/-- C2 counterexample: onResizeStop stores parseInt(ref.style.width) with
no clamping, so a resize request of width 0 and height 0 on the sticker
leaves an object whose width and height are 0, refuting the
positive-dimensions invariant. -/
theorem resize_no_clamp_counterexample :
    ¬ (∀ o ∈ (onResizeStopStickers "sticker-0" 0 0 100 100 resizeDemoState).stickers,
        0 < o.width ∧ 0 < o.height) := by
  intro hall
  have hlist : (onResizeStopStickers "sticker-0" 0 0 100 100 resizeDemoState).stickers =
      [{ demoSticker with width := 0, height := 0, x := 100, y := 100 }] := by
    norm_num [onResizeStopStickers, resizeDemoState, sampleState, demoSticker]
  have h2 := hall _ (by rw [hlist]; exact List.mem_singleton_self _)
  norm_num [demoSticker] at h2

/-- C2 amended: a resize operation stores the requested parsed integer
width and height and the new position verbatim — with no positivity
clamping — on the object with the matching id in its collection; other
objects, the other collections and the surface are unchanged.  The
all-times positivity invariant therefore holds only while every resize
request is positive. -/
theorem resize_stores_request_verbatim (targetId : String) (nw nh : ℤ) (px py : ℚ) (s : AppState) :
    ((∀ o ∈ s.stickers, o.id = targetId →
        { o with width := (nw : ℚ), height := (nh : ℚ), x := px, y := py } ∈
          (onResizeStopStickers targetId nw nh px py s).stickers) ∧
     (∀ o ∈ s.stickers, o.id ≠ targetId →
        o ∈ (onResizeStopStickers targetId nw nh px py s).stickers) ∧
     (onResizeStopStickers targetId nw nh px py s).textBoxes = s.textBoxes ∧
     (onResizeStopStickers targetId nw nh px py s).images = s.images ∧
     (onResizeStopStickers targetId nw nh px py s).ctx = s.ctx) ∧
    ((∀ o ∈ s.textBoxes, o.id = targetId →
        { o with width := (nw : ℚ), height := (nh : ℚ), x := px, y := py } ∈
          (onResizeStopTextBoxes targetId nw nh px py s).textBoxes) ∧
     (∀ o ∈ s.textBoxes, o.id ≠ targetId →
        o ∈ (onResizeStopTextBoxes targetId nw nh px py s).textBoxes) ∧
     (onResizeStopTextBoxes targetId nw nh px py s).stickers = s.stickers ∧
     (onResizeStopTextBoxes targetId nw nh px py s).images = s.images ∧
     (onResizeStopTextBoxes targetId nw nh px py s).ctx = s.ctx) ∧
    ((∀ o ∈ s.images, o.id = targetId →
        { o with width := (nw : ℚ), height := (nh : ℚ), x := px, y := py } ∈
          (onResizeStopImages targetId nw nh px py s).images) ∧
     (∀ o ∈ s.images, o.id ≠ targetId →
        o ∈ (onResizeStopImages targetId nw nh px py s).images) ∧
     (onResizeStopImages targetId nw nh px py s).stickers = s.stickers ∧
     (onResizeStopImages targetId nw nh px py s).textBoxes = s.textBoxes ∧
     (onResizeStopImages targetId nw nh px py s).ctx = s.ctx) := by
  refine ⟨⟨?_, ?_, rfl, rfl, rfl⟩, ⟨?_, ?_, rfl, rfl, rfl⟩, ⟨?_, ?_, rfl, rfl, rfl⟩⟩
  · intro o ho hid
    exact List.mem_map.mpr ⟨o, ho, by simp [hid]⟩
  · intro o ho hid
    exact List.mem_map.mpr ⟨o, ho, by simp [hid]⟩
  · intro o ho hid
    exact List.mem_map.mpr ⟨o, ho, by simp [hid]⟩
  · intro o ho hid
    exact List.mem_map.mpr ⟨o, ho, by simp [hid]⟩
  · intro o ho hid
    exact List.mem_map.mpr ⟨o, ho, by simp [hid]⟩
  · intro o ho hid
    exact List.mem_map.mpr ⟨o, ho, by simp [hid]⟩

/-- Witness for the amended C2 at a concrete input: resizing the sticker
of resizeDemoState to the non-positive request 0 × 0 stores exactly 0 × 0. -/
theorem resize_stores_request_verbatim_witness :
    demoSticker ∈ resizeDemoState.stickers ∧ demoSticker.id = "sticker-0" ∧
    { demoSticker with width := ((0:ℤ) : ℚ), height := ((0:ℤ) : ℚ), x := (100:ℚ), y := (100:ℚ) } ∈
      (onResizeStopStickers "sticker-0" 0 0 100 100 resizeDemoState).stickers :=
  ⟨List.mem_singleton_self _, rfl,
    (resize_stores_request_verbatim "sticker-0" 0 0 100 100 resizeDemoState).1.1 demoSticker
      (List.mem_singleton_self _) rfl⟩

/-- C6: a pasted image payload with natural dimensions naturalW ×
naturalH, viewport innerW × innerH and zoom scale in [0.5, 3.0] is
inserted with width 300, height 300 / (naturalW / naturalH), x =
innerW/2/scale - width/2 and y = innerH/2/scale - height/2, appended to
the image collection. -/
theorem paste_image_geometry (naturalW naturalH innerW innerH : ℚ) (now : ℕ) (url : String)
    (s : AppState) (hW : 0 < naturalW) (hH : 0 < naturalH)
    (hz1 : 1/2 ≤ s.scale) (hz2 : s.scale ≤ 3) :
    (pasteImage naturalW naturalH innerW innerH now url s).images =
      s.images ++
        [{ id := imgIdOf now
           x := innerW / 2 / s.scale - 300 / 2
           y := innerH / 2 / s.scale - (300 / (naturalW / naturalH)) / 2
           width := 300
           height := 300 / (naturalW / naturalH)
           url := url }] := rfl

/-- Witness for C6, Scenario C of the spec: a 600×400 image pasted with
viewport 1000×800 at zoom 1.0 is inserted with width 300, height 200,
x = 350 and y = 300. -/
theorem paste_image_geometry_witness :
    (0:ℚ) < 600 ∧ (0:ℚ) < 400 ∧ (1:ℚ)/2 ≤ sampleState.scale ∧ sampleState.scale ≤ 3 ∧
    (pasteImage 600 400 1000 800 7 "blob-1" sampleState).images =
      [{ id := imgIdOf 7, x := 350, y := 300, width := 300, height := 200, url := "blob-1" }] := by
  refine ⟨by norm_num, by norm_num, by norm_num [sampleState], by norm_num [sampleState], ?_⟩
  rw [paste_image_geometry 600 400 1000 800 7 "blob-1" sampleState (by norm_num) (by norm_num)
    (by norm_num [sampleState]) (by norm_num [sampleState])]
  norm_num [sampleState]

/-- One zoom step keeps the scale on the grid of tenths between 0.5 and 3. -/
theorem handleZoomStep_grid (d : ZoomDirection) (z : ℚ)
    (h : ∃ k : ℕ, 5 ≤ k ∧ k ≤ 30 ∧ z = (k : ℚ) / 10) :
    ∃ k : ℕ, 5 ≤ k ∧ k ≤ 30 ∧ handleZoomStep d z = (k : ℚ) / 10 := by
  obtain ⟨k, hk5, hk30, rfl⟩ := h
  cases d with
  | zin =>
    unfold handleZoomStep
    by_cases hlt : (k : ℚ) / 10 < 3
    · have hk : k < 30 := by
        rw [div_lt_iff (by norm_num : (0:ℚ) < 10)] at hlt
        exact_mod_cast hlt
      refine ⟨k + 1, by omega, by omega, ?_⟩
      rw [if_pos hlt]
      push_cast
      norm_num
      ring
    · exact ⟨k, hk5, hk30, by rw [if_neg hlt]⟩
  | zout =>
    unfold handleZoomStep
    by_cases hgt : (k : ℚ) / 10 > 0.5
    · have hk : 5 < k := by
        have h5 : (5:ℚ) < (k:ℚ) := by
          rw [gt_iff_lt, show (0.5 : ℚ) = 5 / 10 by norm_num] at hgt
          linarith
        exact_mod_cast h5
      refine ⟨k - 1, by omega, by omega, ?_⟩
      rw [if_pos hgt]
      have hcast : ((k - 1 : ℕ) : ℚ) = (k : ℚ) - 1 := by
        push_cast [Nat.cast_sub (by omega : 1 ≤ k)]
        ring
      rw [hcast]
      norm_num
      ring
    · exact ⟨k, hk5, hk30, by rw [if_neg hgt]⟩

/-- Folding zoom steps keeps the scale on the grid of tenths. -/
theorem applyZooms_grid (ds : List ZoomDirection) (z : ℚ)
    (h : ∃ k : ℕ, 5 ≤ k ∧ k ≤ 30 ∧ z = (k : ℚ) / 10) :
    ∃ k : ℕ, 5 ≤ k ∧ k ≤ 30 ∧ applyZooms ds z = (k : ℚ) / 10 := by
  induction ds generalizing z with
  | nil =>
    obtain ⟨k, hk5, hk30, hz⟩ := h
    exact ⟨k, hk5, hk30, hz⟩
  | cons d ds ih =>
    rw [show applyZooms (d :: ds) z = applyZooms ds (handleZoomStep d z) from rfl]
    exact ih _ (handleZoomStep_grid d z h)

/-- In the exact-arithmetic idealization of the zoom controller: from the
default zoom 1.0 every finite sequence of zoom requests leaves the scale
within [0.5, 3.0]; five +0.1 requests give exactly 1.5 and twenty -0.1
requests give exactly 0.5.  This documents the intent of the guards; the
source's IEEE-double arithmetic does not satisfy it (zoom_float_behavior). -/
theorem zoom_grid_bounds_exact (ds : List ZoomDirection) :
    (1/2 ≤ applyZooms ds 1 ∧ applyZooms ds 1 ≤ 3) ∧
    applyZooms (List.replicate 5 ZoomDirection.zin) 1 = 3/2 ∧
    applyZooms (List.replicate 20 ZoomDirection.zout) 1 = 1/2 := by
  refine ⟨?_, ?_, ?_⟩
  · obtain ⟨k, hk5, hk30, hz⟩ :=
      applyZooms_grid ds 1 ⟨10, by norm_num, by norm_num, by norm_num⟩
    rw [hz]
    constructor
    · have hk : (5:ℚ) ≤ (k:ℚ) := by exact_mod_cast hk5
      linarith
    · have hk : (k:ℚ) ≤ 30 := by exact_mod_cast hk30
      linarith
  · norm_num [List.replicate, applyZooms, List.foldl, handleZoomStep]
  · norm_num [List.replicate, applyZooms, List.foldl, handleZoomStep]

/-- Fuel-free specification of the decimal digit rendering that Nat.repr
performs: the digits of n / 10 followed by the digit character of n % 10. -/
def natToDigitsSpec (n : ℕ) : List Char :=
  if h : n / 10 = 0 then [Nat.digitChar (n % 10)]
  else natToDigitsSpec (n / 10) ++ [Nat.digitChar (n % 10)]
decreasing_by exact Nat.div_lt_self (by omega) (by omega)

/-- Unfolding of natToDigitsSpec on a one-digit number. -/
theorem natToDigitsSpec_small (n : ℕ) (h : n / 10 = 0) :
    natToDigitsSpec n = [Nat.digitChar (n % 10)] := by
  rw [natToDigitsSpec, dif_pos h]

/-- Unfolding of natToDigitsSpec on a multi-digit number. -/
theorem natToDigitsSpec_large (n : ℕ) (h : ¬ n / 10 = 0) :
    natToDigitsSpec n = natToDigitsSpec (n / 10) ++ [Nat.digitChar (n % 10)] := by
  rw [natToDigitsSpec]
  rw [dif_neg h]

/-- natToDigitsSpec never returns the empty list. -/
theorem natToDigitsSpec_ne_nil (n : ℕ) : natToDigitsSpec n ≠ [] := by
  by_cases h : n / 10 = 0
  · rw [natToDigitsSpec_small n h]
    simp
  · rw [natToDigitsSpec_large n h]
    simp

/-- Nat.toDigitsCore in base 10 agrees with the fuel-free digit spec when
the fuel exceeds the number. -/
theorem toDigitsCore_eq_spec (f : ℕ) : ∀ (n : ℕ) (ds : List Char), n < f →
    Nat.toDigitsCore 10 f n ds = natToDigitsSpec n ++ ds := by
  induction f with
  | zero =>
    intro n ds h
    omega
  | succ f ih =>
    intro n ds h
    by_cases h0 : n / 10 = 0
    · rw [show Nat.toDigitsCore 10 (f + 1) n ds =
          (if n / 10 = 0 then Nat.digitChar (n % 10) :: ds
           else Nat.toDigitsCore 10 f (n / 10) (Nat.digitChar (n % 10) :: ds)) from rfl,
        if_pos h0, natToDigitsSpec_small n h0]
      rfl
    · rw [show Nat.toDigitsCore 10 (f + 1) n ds =
          (if n / 10 = 0 then Nat.digitChar (n % 10) :: ds
           else Nat.toDigitsCore 10 f (n / 10) (Nat.digitChar (n % 10) :: ds)) from rfl,
        if_neg h0, ih (n / 10) _ (by omega), natToDigitsSpec_large n h0, List.append_assoc]
      rfl

/-- Nat.digitChar is injective on single decimal digits. -/
theorem digitChar_inj_lt :
    ∀ m, m < 10 → ∀ n, n < 10 → Nat.digitChar m = Nat.digitChar n → m = n := by
  decide

/-- The fuel-free digit rendering is injective. -/
theorem natToDigitsSpec_inj (m : ℕ) :
    ∀ n, natToDigitsSpec m = natToDigitsSpec n → m = n := by
  induction m using Nat.strong_induction_on with
  | _ m ih =>
    intro n h
    by_cases hm : m / 10 = 0 <;> by_cases hn : n / 10 = 0
    · rw [natToDigitsSpec_small m hm, natToDigitsSpec_small n hn, List.singleton_inj] at h
      have := digitChar_inj_lt (m % 10) (Nat.mod_lt m (by omega)) (n % 10)
        (Nat.mod_lt n (by omega)) h
      omega
    · rw [natToDigitsSpec_small m hm, natToDigitsSpec_large n hn] at h
      have hl := congrArg List.length h
      simp at hl
      exact absurd hl (natToDigitsSpec_ne_nil (n / 10))
    · rw [natToDigitsSpec_large m hm, natToDigitsSpec_small n hn] at h
      have hl := congrArg List.length h
      simp at hl
      exact absurd hl (natToDigitsSpec_ne_nil (m / 10))
    · rw [natToDigitsSpec_large m hm, natToDigitsSpec_large n hn] at h
      obtain ⟨h1, h2⟩ := List.append_inj' h rfl
      have hdiv := ih (m / 10) (Nat.div_lt_self (by omega) (by omega)) (n / 10) h1
      have hmod := digitChar_inj_lt (m % 10) (Nat.mod_lt m (by omega)) (n % 10)
        (Nat.mod_lt n (by omega)) (List.singleton_inj.mp h2)
      omega

/-- Nat.repr is injective: distinct numbers render to distinct strings. -/
theorem nat_repr_inj (m n : ℕ) (h : Nat.repr m = Nat.repr n) : m = n := by
  have hd : Nat.toDigits 10 m = Nat.toDigits 10 n := congrArg String.data h
  rw [Nat.toDigits, Nat.toDigits, toDigitsCore_eq_spec (m + 1) m [] (Nat.lt_succ_self m),
    toDigitsCore_eq_spec (n + 1) n [] (Nat.lt_succ_self n),
    List.append_nil, List.append_nil] at hd
  exact natToDigitsSpec_inj m n hd

/-- A fixed tag followed by Nat.repr is injective in the number. -/
theorem tag_repr_inj (p : String) (m n : ℕ) (h : p ++ Nat.repr m = p ++ Nat.repr n) :
    m = n := by
  have hd := congrArg String.data h
  rw [String.data_append, String.data_append] at hd
  have hr : (Nat.repr m).data = (Nat.repr n).data := List.append_cancel_left hd
  exact nat_repr_inj m n (by
    have hm : Nat.repr m = String.mk (Nat.repr m).data := rfl
    have hn : Nat.repr n = String.mk (Nat.repr n).data := rfl
    rw [hm, hn, hr])

/-- Two sticker insertions driven by clicks whose Date.now() values are
both 0: the user picks a sticker, clicks, picks another sticker, clicks
again, all within the same millisecond. -/
def doubleInsertState : AppState :=
  handleCanvasClick eraseDemoEvent 0
    (pickSticker "fas fa-star"
      (handleCanvasClick eraseDemoEvent 0 (pickSticker "fas fa-heart" sampleState)))

/-- C3 counterexample: two sticker inserts in the same millisecond both
receive the id "sticker-0", so the generated ids are not pairwise
distinct within the collection. -/
theorem sticker_id_collision_counterexample :
    doubleInsertState.stickers.map StickerType.id = [stickerIdOf 0, stickerIdOf 0] ∧
    ¬ (doubleInsertState.stickers.map StickerType.id).Nodup := by
  constructor
  · rfl
  · intro hnd
    rw [show doubleInsertState.stickers.map StickerType.id = [stickerIdOf 0, stickerIdOf 0]
      from rfl] at hnd
    simp at hnd

/-- C3 amended: generated ids embed the Date.now() millisecond timestamp
behind a per-collection tag: a sticker insert at time t appends exactly
the id stickerIdOf t, and within each collection equal ids force equal
timestamps — so inserts at pairwise distinct timestamps (as for ids of
later objects after a removal) carry pairwise distinct ids, while two
inserts in the same millisecond collide. -/
theorem insert_ids_injective_in_timestamp (m n : ℕ) (e : MouseEvent) (s : AppState)
    (h1 : s.tool = Tool.sticker) (h2 : s.selectedSticker ≠ "") :
    (handleCanvasClick e m s).stickers.map StickerType.id =
      s.stickers.map StickerType.id ++ [stickerIdOf m] ∧
    (stickerIdOf m = stickerIdOf n ↔ m = n) ∧
    (textIdOf m = textIdOf n ↔ m = n) ∧
    (imgIdOf m = imgIdOf n ↔ m = n) := by
  refine ⟨?_, ?_, ?_, ?_⟩
  · simp [handleCanvasClick, h1, h2]
  · exact ⟨tag_repr_inj "sticker-" m n, fun hmn => by rw [hmn]⟩
  · exact ⟨tag_repr_inj "text-" m n, fun hmn => by rw [hmn]⟩
  · exact ⟨tag_repr_inj "img-" m n, fun hmn => by rw [hmn]⟩

/-- Witness for the amended C3 at concrete inputs: a click at time 5 on a
sticker-armed state appends the id "sticker-5", and the ids of times 5
and 6 differ while equal times give equal ids. -/
theorem insert_ids_injective_in_timestamp_witness :
    (pickSticker "fas fa-heart" sampleState).tool = Tool.sticker ∧
    (pickSticker "fas fa-heart" sampleState).selectedSticker ≠ "" ∧
    (handleCanvasClick eraseDemoEvent 5 (pickSticker "fas fa-heart" sampleState)).stickers.map
        StickerType.id =
      (pickSticker "fas fa-heart" sampleState).stickers.map StickerType.id ++ [stickerIdOf 5] ∧
    (stickerIdOf 5 = stickerIdOf 6 ↔ (5 : ℕ) = 6) :=
  ⟨rfl, by decide,
    (insert_ids_injective_in_timestamp 5 6 eraseDemoEvent
      (pickSticker "fas fa-heart" sampleState) rfl (by decide)).1,
    (insert_ids_injective_in_timestamp 5 6 eraseDemoEvent
      (pickSticker "fas fa-heart" sampleState) rfl (by decide)).2.1⟩

/-- The binary64 double nearest 0.1: the value of the literal 0.1 in the
source, 3602879701896397 * 2^-55. -/
def DOUBLE_TENTH : ℚ := 3602879701896397 / 2 ^ 55

/-- Round a rational to the nearest integer, ties to the even integer. -/
def roundHalfEven (m : ℚ) : ℤ :=
  if m - ⌊m⌋ < 1 / 2 then ⌊m⌋
  else if 1 / 2 < m - ⌊m⌋ then ⌊m⌋ + 1
  else if 2 ∣ ⌊m⌋ then ⌊m⌋ else ⌊m⌋ + 1

/-- IEEE-754 binary64 rounding (round to nearest, ties to even) of a
rational in the normal range: the value is scaled by the power of two
that puts its binade at [2^52, 2^53), rounded to an integer mantissa and
scaled back.  Zero maps to zero and negative values round symmetrically;
overflow and subnormal underflow, far outside the zoom range, are not
modelled. -/
def roundDouble (x : ℚ) : ℚ :=
  if x = 0 then 0
  else if 0 < x then
    (roundHalfEven (x * 2 ^ (52 - Int.log 2 x)) : ℚ) * 2 ^ (Int.log 2 x - 52)
  else
    -((roundHalfEven (-x * 2 ^ (52 - Int.log 2 (-x))) : ℚ) * 2 ^ (Int.log 2 (-x) - 52))

/-- The scale update of handleZoom (lines 343-349) under the source
language's IEEE-double arithmetic: the guards compare exactly (the
stored scales and the bounds are doubles), and each step adds or
subtracts the double literal 0.1 with binary64 rounding of the result. -/
def handleZoomStepFP (d : ZoomDirection) (prev : ℚ) : ℚ :=
  match d with
  | ZoomDirection.zin => if prev < 3 then roundDouble (prev + DOUBLE_TENTH) else prev
  | ZoomDirection.zout => if prev > 0.5 then roundDouble (prev - DOUBLE_TENTH) else prev

/-- A finite sequence of zoom requests under IEEE-double arithmetic. -/
def applyZoomsFP (ds : List ZoomDirection) (z : ℚ) : ℚ :=
  ds.foldl (fun z d => handleZoomStepFP d z) z

/-- Evaluation rule for roundDouble on a positive value whose binade is
supplied explicitly. -/
theorem roundDouble_pos_eq (x : ℚ) (e : ℤ) (h1 : (2:ℚ) ^ e ≤ x) (h2 : x < 2 ^ (e + 1)) :
    roundDouble x = (roundHalfEven (x * 2 ^ (52 - e)) : ℚ) * 2 ^ (e - 52) := by
  have hx : 0 < x := lt_of_lt_of_le (by positivity) h1
  have h1n : ((2:ℕ):ℚ) ^ e ≤ x := by exact_mod_cast h1
  have h2n : x < ((2:ℕ):ℚ) ^ (e + 1) := by exact_mod_cast h2
  have he : Int.log 2 x = e := by
    have hle : e ≤ Int.log 2 x := (Int.zpow_le_iff_le_log (by norm_num) hx).mp h1n
    have hlt : Int.log 2 x < e + 1 := (Int.lt_zpow_iff_log_lt (by norm_num) hx).mp h2n
    omega
  unfold roundDouble
  rw [if_neg hx.ne', if_pos hx, he]

/-- roundHalfEven on a value whose fractional part exceeds one half. -/
theorem roundHalfEven_eq_up (m : ℚ) (fl : ℤ) (h1 : (fl:ℚ) ≤ m) (h2 : m < fl + 1)
    (h3 : 1 / 2 < m - fl) : roundHalfEven m = fl + 1 := by
  have hfl : ⌊m⌋ = fl := Int.floor_eq_iff.mpr ⟨h1, h2⟩
  unfold roundHalfEven
  rw [hfl, if_neg (by linarith), if_pos h3]

/-- roundHalfEven on an exact tie with an odd floor rounds up to even. -/
theorem roundHalfEven_eq_tie_odd (m : ℚ) (fl : ℤ) (h1 : (fl:ℚ) ≤ m) (h2 : m < fl + 1)
    (h3 : m - fl = 1 / 2) (h4 : ¬ (2 ∣ fl)) : roundHalfEven m = fl + 1 := by
  have hfl : ⌊m⌋ = fl := Int.floor_eq_iff.mpr ⟨h1, h2⟩
  unfold roundHalfEven
  rw [hfl, h3, if_neg (by norm_num), if_neg (by norm_num), if_neg h4]

/-- C4: under the source language's IEEE-double arithmetic the zoom does
not stay within [0.5, 3.0] and the named step values are not exact:
twenty -0.1 requests from 1.0 pass the > 0.5 guard at
0.5000000000000001 and end at 0.40000000000000013, strictly below the
claimed 0.5 floor, and five +0.1 requests from 1.0 end at
1.5000000000000004, not exactly 1.5.  This evaluates the code at the
claim's own Scenario D input and exhibits the divergence; the clamping
intent of the guards (proved of the exact-arithmetic idealization in
zoom_grid_bounds_exact) is defeated by comparing drifted doubles against
the ideal bounds. -/
theorem zoom_float_behavior :
    applyZoomsFP (List.replicate 20 ZoomDirection.zout) 1 = 1801439850948199 / 4503599627370496 ∧
    (1801439850948199 : ℚ) / 4503599627370496 < 1 / 2 ∧
    applyZoomsFP (List.replicate 5 ZoomDirection.zin) 1 = 3377699720527873 / 2251799813685248 ∧
    (3377699720527873 : ℚ) / 2251799813685248 ≠ 3 / 2 := by
  have o1 : handleZoomStepFP ZoomDirection.zout (1) = 8106479329266893 / 9007199254740992 := by
      show (if (1 : ℚ) > 0.5 then roundDouble ((1 : ℚ) - DOUBLE_TENTH) else 1) = 8106479329266893 / 9007199254740992
      rw [if_pos (by norm_num),
        show (1 : ℚ) - DOUBLE_TENTH = 32425917317067571 / 36028797018963968 from by norm_num [DOUBLE_TENTH],
        roundDouble_pos_eq _ (-1) (by norm_num) (by norm_num),
        show (32425917317067571 / 36028797018963968 : ℚ) * 2 ^ ((52:ℤ) - (-1)) = 32425917317067571 / 4 from by norm_num,
        roundHalfEven_eq_up _ 8106479329266892 (by norm_num) (by push_cast; norm_num)
      (by push_cast; norm_num)]
      push_cast
      norm_num
  have o2 : handleZoomStepFP ZoomDirection.zout (8106479329266893 / 9007199254740992) = 3602879701896397 / 4503599627370496 := by
      show (if (8106479329266893 / 9007199254740992 : ℚ) > 0.5 then roundDouble ((8106479329266893 / 9007199254740992 : ℚ) - DOUBLE_TENTH) else 8106479329266893 / 9007199254740992) = 3602879701896397 / 4503599627370496
      rw [if_pos (by norm_num),
        show (8106479329266893 / 9007199254740992 : ℚ) - DOUBLE_TENTH = 28823037615171175 / 36028797018963968 from by norm_num [DOUBLE_TENTH],
        roundDouble_pos_eq _ (-1) (by norm_num) (by norm_num),
        show (28823037615171175 / 36028797018963968 : ℚ) * 2 ^ ((52:ℤ) - (-1)) = 28823037615171175 / 4 from by norm_num,
        roundHalfEven_eq_up _ 7205759403792793 (by norm_num) (by push_cast; norm_num)
      (by push_cast; norm_num)]
      push_cast
      norm_num
  have o3 : handleZoomStepFP ZoomDirection.zout (3602879701896397 / 4503599627370496) = 6305039478318695 / 9007199254740992 := by
      show (if (3602879701896397 / 4503599627370496 : ℚ) > 0.5 then roundDouble ((3602879701896397 / 4503599627370496 : ℚ) - DOUBLE_TENTH) else 3602879701896397 / 4503599627370496) = 6305039478318695 / 9007199254740992
      rw [if_pos (by norm_num),
        show (3602879701896397 / 4503599627370496 : ℚ) - DOUBLE_TENTH = 25220157913274779 / 36028797018963968 from by norm_num [DOUBLE_TENTH],
        roundDouble_pos_eq _ (-1) (by norm_num) (by norm_num),
        show (25220157913274779 / 36028797018963968 : ℚ) * 2 ^ ((52:ℤ) - (-1)) = 25220157913274779 / 4 from by norm_num,
        roundHalfEven_eq_up _ 6305039478318694 (by norm_num) (by push_cast; norm_num)
      (by push_cast; norm_num)]
      push_cast
      norm_num
  have o4 : handleZoomStepFP ZoomDirection.zout (6305039478318695 / 9007199254740992) = 1351079888211149 / 2251799813685248 := by
      show (if (6305039478318695 / 9007199254740992 : ℚ) > 0.5 then roundDouble ((6305039478318695 / 9007199254740992 : ℚ) - DOUBLE_TENTH) else 6305039478318695 / 9007199254740992) = 1351079888211149 / 2251799813685248
      rw [if_pos (by norm_num),
        show (6305039478318695 / 9007199254740992 : ℚ) - DOUBLE_TENTH = 21617278211378383 / 36028797018963968 from by norm_num [DOUBLE_TENTH],
        roundDouble_pos_eq _ (-1) (by norm_num) (by norm_num),
        show (21617278211378383 / 36028797018963968 : ℚ) * 2 ^ ((52:ℤ) - (-1)) = 21617278211378383 / 4 from by norm_num,
        roundHalfEven_eq_up _ 5404319552844595 (by norm_num) (by push_cast; norm_num)
      (by push_cast; norm_num)]
      push_cast
      norm_num
  have o5 : handleZoomStepFP ZoomDirection.zout (1351079888211149 / 2251799813685248) = 4503599627370497 / 9007199254740992 := by
      show (if (1351079888211149 / 2251799813685248 : ℚ) > 0.5 then roundDouble ((1351079888211149 / 2251799813685248 : ℚ) - DOUBLE_TENTH) else 1351079888211149 / 2251799813685248) = 4503599627370497 / 9007199254740992
      rw [if_pos (by norm_num),
        show (1351079888211149 / 2251799813685248 : ℚ) - DOUBLE_TENTH = 18014398509481987 / 36028797018963968 from by norm_num [DOUBLE_TENTH],
        roundDouble_pos_eq _ (-1) (by norm_num) (by norm_num),
        show (18014398509481987 / 36028797018963968 : ℚ) * 2 ^ ((52:ℤ) - (-1)) = 18014398509481987 / 4 from by norm_num,
        roundHalfEven_eq_up _ 4503599627370496 (by norm_num) (by push_cast; norm_num)
      (by push_cast; norm_num)]
      push_cast
      norm_num
  have o6 : handleZoomStepFP ZoomDirection.zout (4503599627370497 / 9007199254740992) = 1801439850948199 / 4503599627370496 := by
      show (if (4503599627370497 / 9007199254740992 : ℚ) > 0.5 then roundDouble ((4503599627370497 / 9007199254740992 : ℚ) - DOUBLE_TENTH) else 4503599627370497 / 9007199254740992) = 1801439850948199 / 4503599627370496
      rw [if_pos (by norm_num),
        show (4503599627370497 / 9007199254740992 : ℚ) - DOUBLE_TENTH = 14411518807585591 / 36028797018963968 from by norm_num [DOUBLE_TENTH],
        roundDouble_pos_eq _ (-2) (by norm_num) (by norm_num),
        show (14411518807585591 / 36028797018963968 : ℚ) * 2 ^ ((52:ℤ) - (-2)) = 14411518807585591 / 2 from by norm_num,
        roundHalfEven_eq_tie_odd _ 7205759403792795 (by norm_num) (by push_cast; norm_num)
      (by push_cast; norm_num) (by decide)]
      push_cast
      norm_num
  have ostay : handleZoomStepFP ZoomDirection.zout (1801439850948199 / 4503599627370496) = 1801439850948199 / 4503599627370496 := by
    show (if (1801439850948199 / 4503599627370496 : ℚ) > 0.5 then roundDouble ((1801439850948199 / 4503599627370496 : ℚ) - DOUBLE_TENTH) else 1801439850948199 / 4503599627370496) = 1801439850948199 / 4503599627370496
    rw [if_neg (by norm_num)]
  have i1 : handleZoomStepFP ZoomDirection.zin (1) = 2476979795053773 / 2251799813685248 := by
      show (if (1 : ℚ) < 3 then roundDouble ((1 : ℚ) + DOUBLE_TENTH) else 1) = 2476979795053773 / 2251799813685248
      rw [if_pos (by norm_num),
        show (1 : ℚ) + DOUBLE_TENTH = 39631676720860365 / 36028797018963968 from by norm_num [DOUBLE_TENTH],
        roundDouble_pos_eq _ (0) (by norm_num) (by norm_num),
        show (39631676720860365 / 36028797018963968 : ℚ) * 2 ^ ((52:ℤ) - (0)) = 39631676720860365 / 8 from by norm_num,
        roundHalfEven_eq_up _ 4953959590107545 (by norm_num) (by push_cast; norm_num)
      (by push_cast; norm_num)]
      push_cast
      norm_num
  have i2 : handleZoomStepFP ZoomDirection.zin (2476979795053773 / 2251799813685248) = 1351079888211149 / 1125899906842624 := by
      show (if (2476979795053773 / 2251799813685248 : ℚ) < 3 then roundDouble ((2476979795053773 / 2251799813685248 : ℚ) + DOUBLE_TENTH) else 2476979795053773 / 2251799813685248) = 1351079888211149 / 1125899906842624
      rw [if_pos (by norm_num),
        show (2476979795053773 / 2251799813685248 : ℚ) + DOUBLE_TENTH = 43234556422756765 / 36028797018963968 from by norm_num [DOUBLE_TENTH],
        roundDouble_pos_eq _ (0) (by norm_num) (by norm_num),
        show (43234556422756765 / 36028797018963968 : ℚ) * 2 ^ ((52:ℤ) - (0)) = 43234556422756765 / 8 from by norm_num,
        roundHalfEven_eq_up _ 5404319552844595 (by norm_num) (by push_cast; norm_num)
      (by push_cast; norm_num)]
      push_cast
      norm_num
  have i3 : handleZoomStepFP ZoomDirection.zin (1351079888211149 / 1125899906842624) = 2927339757790823 / 2251799813685248 := by
      show (if (1351079888211149 / 1125899906842624 : ℚ) < 3 then roundDouble ((1351079888211149 / 1125899906842624 : ℚ) + DOUBLE_TENTH) else 1351079888211149 / 1125899906842624) = 2927339757790823 / 2251799813685248
      rw [if_pos (by norm_num),
        show (1351079888211149 / 1125899906842624 : ℚ) + DOUBLE_TENTH = 46837436124653165 / 36028797018963968 from by norm_num [DOUBLE_TENTH],
        roundDouble_pos_eq _ (0) (by norm_num) (by norm_num),
        show (46837436124653165 / 36028797018963968 : ℚ) * 2 ^ ((52:ℤ) - (0)) = 46837436124653165 / 8 from by norm_num,
        roundHalfEven_eq_up _ 5854679515581645 (by norm_num) (by push_cast; norm_num)
      (by push_cast; norm_num)]
      push_cast
      norm_num
  have i4 : handleZoomStepFP ZoomDirection.zin (2927339757790823 / 2251799813685248) = 788129934789837 / 562949953421312 := by
      show (if (2927339757790823 / 2251799813685248 : ℚ) < 3 then roundDouble ((2927339757790823 / 2251799813685248 : ℚ) + DOUBLE_TENTH) else 2927339757790823 / 2251799813685248) = 788129934789837 / 562949953421312
      rw [if_pos (by norm_num),
        show (2927339757790823 / 2251799813685248 : ℚ) + DOUBLE_TENTH = 50440315826549565 / 36028797018963968 from by norm_num [DOUBLE_TENTH],
        roundDouble_pos_eq _ (0) (by norm_num) (by norm_num),
        show (50440315826549565 / 36028797018963968 : ℚ) * 2 ^ ((52:ℤ) - (0)) = 50440315826549565 / 8 from by norm_num,
        roundHalfEven_eq_up _ 6305039478318695 (by norm_num) (by push_cast; norm_num)
      (by push_cast; norm_num)]
      push_cast
      norm_num
  have i5 : handleZoomStepFP ZoomDirection.zin (788129934789837 / 562949953421312) = 3377699720527873 / 2251799813685248 := by
      show (if (788129934789837 / 562949953421312 : ℚ) < 3 then roundDouble ((788129934789837 / 562949953421312 : ℚ) + DOUBLE_TENTH) else 788129934789837 / 562949953421312) = 3377699720527873 / 2251799813685248
      rw [if_pos (by norm_num),
        show (788129934789837 / 562949953421312 : ℚ) + DOUBLE_TENTH = 54043195528445965 / 36028797018963968 from by norm_num [DOUBLE_TENTH],
        roundDouble_pos_eq _ (0) (by norm_num) (by norm_num),
        show (54043195528445965 / 36028797018963968 : ℚ) * 2 ^ ((52:ℤ) - (0)) = 54043195528445965 / 8 from by norm_num,
        roundHalfEven_eq_up _ 6755399441055745 (by norm_num) (by push_cast; norm_num)
      (by push_cast; norm_num)]
      push_cast
      norm_num
  refine ⟨?_, by norm_num, ?_, by norm_num⟩
  · show List.foldl (fun z d => handleZoomStepFP d z) 1 (List.replicate 20 ZoomDirection.zout) =
      1801439850948199 / 4503599627370496
    simp only [List.replicate, List.foldl, o1, o2, o3, o4, o5, o6, ostay]
  · show List.foldl (fun z d => handleZoomStepFP d z) 1 (List.replicate 5 ZoomDirection.zin) =
      3377699720527873 / 2251799813685248
    simp only [List.replicate, List.foldl, i1, i2, i3, i4, i5]

end Whiteboard
